import Mathlib

/-!
Verification of the chaos-engineering demo harness
(`chaos_test_ddos_demo.py` and `chaos_test_server_failure_demo.py`).

The Python code is shallowly embedded: shared mutable state becomes a state
record threaded through step functions, `random.random()` draws become
explicit rational parameters in `[0,1)`, `random.choice` becomes an explicit
index parameter, and each locked update of the metrics dictionary becomes one
atomic state transition.  A run is a fold over an arbitrary interleaving of
request events, so every theorem quantifying over schedules covers every
thread interleaving in which the locked updates are atomic.
-/

namespace DDoSDemo

/-- Configuration constant `NORMAL_USERS = 5` from `chaos_test_ddos_demo.py`. -/
def NORMAL_USERS : Nat := 5

/-- Configuration constant `ATTACK_BOTS = 10`. -/
def ATTACK_BOTS : Nat := 10

/-- Configuration constant `REQUESTS_PER_USER = 3`. -/
def REQUESTS_PER_USER : Nat := 3

/-- Configuration constant `REQUESTS_PER_BOT = 5`. -/
def REQUESTS_PER_BOT : Nat := 5

/-- The counters of the `self.results` dictionary of `DDoSSimulation`
(timestamps omitted: they carry no decision logic). -/
structure DDoSResults where
  normal_user_success : Nat
  normal_user_fail : Nat
  bot_requests_sent : Nat
  bot_requests_blocked : Nat
deriving DecidableEq

/-- The shared mutable state of `DDoSSimulation`: the results counters plus
the `ddos_protection_active` flag. -/
structure DDoSState where
  results : DDoSResults
  ddos_protection_active : Bool
deriving DecidableEq

/-- The state built by `DDoSSimulation.__init__`: all counters zero and the
protection flag off. -/
def initDDoS : DDoSState := ⟨⟨0, 0, 0, 0⟩, false⟩

/-- `DDoSSimulation.mock_server_response`.  Reads the bot-request counter,
sets the protection flag when the counter strictly exceeds 5, then draws the
status code from the per-kind probabilities.  `r` is the `random.random()`
draw.  Returns the HTTP status code and the updated state. -/
def mock_server_response (s : DDoSState) (isBot : Bool) (r : ℚ) :
    Nat × DDoSState :=
  let active := if s.results.bot_requests_sent > 5 then true
                else s.ddos_protection_active
  let s2 : DDoSState := ⟨s.results, active⟩
  if isBot && active then
    if r < 85/100 then (429, s2) else (200, s2)
  else if isBot then
    if r < 30/100 then (429, s2) else (200, s2)
  else
    if r < 95/100 then (200, s2) else (503, s2)

/-- One loop iteration of `simulate_normal_user`: call the policy with
`is_bot=False`, then, under the lock, bump the success or failure counter. -/
def normalRequestStep (s : DDoSState) (r : ℚ) : DDoSState :=
  match mock_server_response s false r with
  | (status, s2) =>
    if status = 200 then
      ⟨⟨s2.results.normal_user_success + 1, s2.results.normal_user_fail,
        s2.results.bot_requests_sent, s2.results.bot_requests_blocked⟩,
       s2.ddos_protection_active⟩
    else
      ⟨⟨s2.results.normal_user_success, s2.results.normal_user_fail + 1,
        s2.results.bot_requests_sent, s2.results.bot_requests_blocked⟩,
       s2.ddos_protection_active⟩

/-- One loop iteration of `simulate_attack_bot`: call the policy with
`is_bot=True`, then, under the lock, increment `bot_requests_sent` and, when
the status is 429 or 403, `bot_requests_blocked`. -/
def botRequestStep (s : DDoSState) (r : ℚ) : DDoSState :=
  match mock_server_response s true r with
  | (status, s2) =>
    ⟨⟨s2.results.normal_user_success, s2.results.normal_user_fail,
      s2.results.bot_requests_sent + 1,
      if status = 429 ∨ status = 403 then s2.results.bot_requests_blocked + 1
      else s2.results.bot_requests_blocked⟩,
     s2.ddos_protection_active⟩

/-- The kind of actor issuing a request. -/
inductive ActorKind where
  | normal
  | bot
deriving DecidableEq

/-- One request event of a schedule: which kind of actor issued it and its
`random.random()` draw. -/
structure ReqEvent where
  kind : ActorKind
  draw : ℚ

/-- Apply one request event to the shared state. -/
def applyEvent (s : DDoSState) (e : ReqEvent) : DDoSState :=
  match e.kind with
  | ActorKind.normal => normalRequestStep s e.draw
  | ActorKind.bot => botRequestStep s e.draw

/-- Run a whole schedule (an arbitrary interleaving of the actors' request
sequences) from a starting state. -/
def runEvents (es : List ReqEvent) (s : DDoSState) : DDoSState :=
  es.foldl applyEvent s

/-- Number of events of a given actor kind in a schedule. -/
def countKind (k : ActorKind) (es : List ReqEvent) : Nat :=
  (es.filter (fun e => decide (e.kind = k))).length

theorem applyEvent_counts (s : DDoSState) (e : ReqEvent) :
    (applyEvent s e).results.normal_user_success
        + (applyEvent s e).results.normal_user_fail
      = s.results.normal_user_success + s.results.normal_user_fail
        + (if e.kind = ActorKind.normal then 1 else 0) ∧
    (applyEvent s e).results.bot_requests_sent
      = s.results.bot_requests_sent
        + (if e.kind = ActorKind.bot then 1 else 0) := by
  rcases e with ⟨kind, draw⟩
  cases kind <;>
    simp only [applyEvent, normalRequestStep, botRequestStep,
      mock_server_response] <;>
    split_ifs <;> simp_all <;> omega

theorem runEvents_counts (es : List ReqEvent) (s : DDoSState) :
    (runEvents es s).results.normal_user_success
        + (runEvents es s).results.normal_user_fail
      = s.results.normal_user_success + s.results.normal_user_fail
        + countKind ActorKind.normal es ∧
    (runEvents es s).results.bot_requests_sent
      = s.results.bot_requests_sent + countKind ActorKind.bot es := by
  induction es generalizing s with
  | nil => simp [runEvents, countKind]
  | cons e es ih =>
    have he := applyEvent_counts s e
    have ihe := ih (applyEvent s e)
    have hrun : runEvents (e :: es) s = runEvents es (applyEvent s e) := rfl
    have hcn : countKind ActorKind.normal (e :: es)
        = (if e.kind = ActorKind.normal then 1 else 0)
          + countKind ActorKind.normal es := by
      simp only [countKind, List.filter_cons]
      split_ifs with h <;> simp_all [Nat.add_comm]
    have hcb : countKind ActorKind.bot (e :: es)
        = (if e.kind = ActorKind.bot then 1 else 0)
          + countKind ActorKind.bot es := by
      simp only [countKind, List.filter_cons]
      split_ifs with h <;> simp_all [Nat.add_comm]
    rw [hrun, hcn, hcb]
    constructor
    · rw [ihe.1, he.1]; omega
    · rw [ihe.2, he.2]; omega

/-- C1: after all actor tasks have joined, every interleaving of 5 normal
users issuing 3 requests each and 10 bots issuing 5 requests each yields
`normal_user_success + normal_user_fail = 5 * 3 = 15` and
`bot_requests_sent = 10 * 5 = 50`: no update is lost, none is duplicated. -/
theorem ddos_totals_exact (es : List ReqEvent)
    (hn : countKind ActorKind.normal es = NORMAL_USERS * REQUESTS_PER_USER)
    (hb : countKind ActorKind.bot es = ATTACK_BOTS * REQUESTS_PER_BOT) :
    (runEvents es initDDoS).results.normal_user_success
        + (runEvents es initDDoS).results.normal_user_fail = 15 ∧
    (runEvents es initDDoS).results.bot_requests_sent = 50 := by
  have h := runEvents_counts es initDDoS
  rw [hn] at h
  rw [hb] at h
  simpa [initDDoS, NORMAL_USERS, REQUESTS_PER_USER, ATTACK_BOTS,
    REQUESTS_PER_BOT] using h

/-- Witness for C1: a concrete schedule of 15 normal and 50 bot events. -/
theorem ddos_totals_exact_witness :
    (runEvents (List.replicate 15 ⟨ActorKind.normal, 0⟩
        ++ List.replicate 50 ⟨ActorKind.bot, 0⟩) initDDoS).results.normal_user_success
      + (runEvents (List.replicate 15 ⟨ActorKind.normal, 0⟩
        ++ List.replicate 50 ⟨ActorKind.bot, 0⟩) initDDoS).results.normal_user_fail
      = 15 ∧
    (runEvents (List.replicate 15 ⟨ActorKind.normal, 0⟩
        ++ List.replicate 50 ⟨ActorKind.bot, 0⟩) initDDoS).results.bot_requests_sent
      = 50 :=
  ddos_totals_exact _ (by decide) (by decide)

/-- C2 counterexample: the claim says a Bot request first increments the
counter and then activates exactly when the (incremented) counter strictly
exceeds 5.  At the state with 5 recorded bot requests and the flag off, the
code's bot step raises the counter to 6 > 5 yet leaves the flag off, because
`mock_server_response` tests the counter before the recording step increments
it. -/
theorem bot_activation_order_counterexample :
    ¬ (((botRequestStep ⟨⟨0, 0, 5, 0⟩, false⟩ 0).ddos_protection_active = true)
        ↔ (botRequestStep ⟨⟨0, 0, 5, 0⟩, false⟩ 0).results.bot_requests_sent > 5) := by
  norm_num [botRequestStep, mock_server_response]

/-- C2 amended: a Bot request evaluates the policy first — setting the flag
exactly when the count of previously recorded bot requests strictly exceeds
5 — and increments the counter afterwards, at recording time.  So from an
inactive state the step activates iff the pre-step counter exceeds 5: a
pre-step counter of exactly 5 does not trigger activation, a pre-step counter
of 6 does. -/
theorem bot_activation_threshold (s : DDoSState) (r : ℚ)
    (h : s.ddos_protection_active = false) :
    (botRequestStep s r).results.bot_requests_sent
      = s.results.bot_requests_sent + 1 ∧
    ((botRequestStep s r).ddos_protection_active = true
      ↔ s.results.bot_requests_sent > 5) := by
  simp only [botRequestStep, mock_server_response]
  split_ifs <;> simp_all

/-- Witness for C2 amended: at 6 previously recorded bot requests the step
activates protection. -/
theorem bot_activation_threshold_witness :
    (botRequestStep ⟨⟨0, 0, 6, 0⟩, false⟩ 0).results.bot_requests_sent = 6 + 1 ∧
    ((botRequestStep ⟨⟨0, 0, 6, 0⟩, false⟩ 0).ddos_protection_active = true
      ↔ 6 > 5) :=
  bot_activation_threshold ⟨⟨0, 0, 6, 0⟩, false⟩ 0 rfl

/-- C3: the protection flag starts false, every single request event (normal
or bot) preserves it once true, and hence any further schedule run from an
activated state keeps it activated: it flips false to true at most once and
never reverts. -/
theorem protection_flag_monotonic :
    initDDoS.ddos_protection_active = false ∧
    (∀ (s : DDoSState) (e : ReqEvent), s.ddos_protection_active = true →
      (applyEvent s e).ddos_protection_active = true) ∧
    (∀ (es : List ReqEvent) (s : DDoSState), s.ddos_protection_active = true →
      (runEvents es s).ddos_protection_active = true) := by
  have hstep : ∀ (s : DDoSState) (e : ReqEvent), s.ddos_protection_active = true →
      (applyEvent s e).ddos_protection_active = true := by
    intro s e h
    rcases e with ⟨kind, draw⟩
    cases kind <;>
      simp only [applyEvent, normalRequestStep, botRequestStep,
        mock_server_response] <;>
      split_ifs <;> simp_all
  refine ⟨rfl, hstep, ?_⟩
  intro es
  induction es with
  | nil => intro s h; simpa [runEvents] using h
  | cons e es ih =>
    intro s h
    have : runEvents (e :: es) s = runEvents es (applyEvent s e) := rfl
    rw [this]
    exact ih _ (hstep s e h)

/-- Witness for C3: one bot event keeps an already-activated flag on. -/
theorem protection_flag_monotonic_witness :
    (applyEvent ⟨⟨0, 0, 0, 0⟩, true⟩ ⟨ActorKind.bot, 0⟩).ddos_protection_active
      = true :=
  protection_flag_monotonic.2.1 ⟨⟨0, 0, 0, 0⟩, true⟩ ⟨ActorKind.bot, 0⟩ rfl

/-- C9: for a normal (non-bot) request the status code is a function of the
random draw alone — 200 when the draw is below 0.95 and 503 otherwise —
identical across any two states, whatever the protection flag or the
bot-request counter. -/
theorem normal_status_state_independent (s1 s2 : DDoSState) (r : ℚ) :
    (mock_server_response s1 false r).1 = (mock_server_response s2 false r).1 ∧
    (mock_server_response s1 false r).1 = (if r < 95/100 then 200 else 503) := by
  simp only [mock_server_response]
  split_ifs <;> simp_all

end DDoSDemo

namespace AttritionDemo

/-- Configuration constant `SERVERS` from `chaos_test_server_failure_demo.py`. -/
def SERVERS : List String :=
  ["tawakkalna-riyadh-1.sa", "tawakkalna-riyadh-2.sa", "tawakkalna-jeddah-1.sa",
   "tawakkalna-jeddah-2.sa", "tawakkalna-dammam-1.sa"]

/-- Configuration constant `NUM_HEALTH_CHECKS = 10`. -/
def NUM_HEALTH_CHECKS : Nat := 10

/-- The mutable state of `ChaosTest`: the `self.results` counters, the
recorded response times, the kill log (timestamps abstracted to `Nat` ticks),
and the live server list `self.active_servers`. -/
structure ChaosState where
  total_requests : Nat
  successful_requests : Nat
  failed_requests : Nat
  response_times : List ℚ
  server_failures : List (Nat × String)
  active_servers : List String
deriving DecidableEq

/-- The state built by `ChaosTest.__init__`: zero counters, empty logs, and
the five configured servers live. -/
def initChaos : ChaosState := ⟨0, 0, 0, [], [], SERVERS⟩

/-- `ChaosTest.kill_random_server`.  When more than one server is live it
removes the randomly chosen one (`random.choice`, modelled by the index
argument `i` reduced modulo the live count) from `active_servers`, logs it
with a timestamp in `server_failures`, and returns its identity; otherwise it
changes nothing and returns no identity. -/
def kill_random_server (s : ChaosState) (i t : Nat) :
    Option String × ChaosState :=
  if h : 1 < s.active_servers.length then
    let server := s.active_servers.get
      ⟨i % s.active_servers.length, Nat.mod_lt i (by omega)⟩
    (some server,
     { s with
        active_servers := s.active_servers.erase server,
        server_failures := s.server_failures ++ [(t, server)] })
  else
    (none, s)

/-- The success probability computed inside `mock_health_check`:
`0.95 + (len(active_servers) - 1) * 0.01` (no clamping in the code). -/
def success_probability (n : Nat) : ℚ := 95/100 + ((n : ℚ) - 1) * (1/100)

/-- The response-time model of `mock_health_check`:
`100 * (5 / len(active_servers)) + jitter` with `jitter = random.uniform(0, 50)`
modelled by the parameter `rjit`. -/
def response_time_model (n : Nat) (rjit : ℚ) : ℚ :=
  100 * (5 / (n : ℚ)) + rjit

/-- `ChaosTest.mock_health_check`: success iff the `random.random()` draw
`rsucc` is below the availability-dependent success probability, response
time from the load model. -/
def mock_health_check (s : ChaosState) (rjit rsucc : ℚ) : Bool × ℚ :=
  (decide (rsucc < success_probability s.active_servers.length),
   response_time_model s.active_servers.length rjit)

/-- `ChaosTest.check_system_health`: count the request, run the health check,
and record either a success with its response time or a failure. -/
def check_system_health (s : ChaosState) (rjit rsucc : ℚ) :
    Bool × ChaosState :=
  let s1 : ChaosState := { s with total_requests := s.total_requests + 1 }
  match mock_health_check s1 rjit rsucc with
  | (true, rt) =>
    (true, { s1 with
              successful_requests := s1.successful_requests + 1,
              response_times := s1.response_times ++ [rt] })
  | (false, _) =>
    (false, { s1 with failed_requests := s1.failed_requests + 1 })

/-- States reachable in a run of `ChaosTest.run_test`: the initial state,
closed under server kills and health checks in any order (a superset of the
script's fixed alternation, so invariants proved here hold for the script). -/
inductive Reach : ChaosState → Prop where
  | init : Reach initChaos
  | kill (s : ChaosState) (i t : Nat) :
      Reach s → Reach (kill_random_server s i t).2
  | health (s : ChaosState) (rjit rsucc : ℚ) :
      Reach s → Reach (check_system_health s rjit rsucc).2

/-- The run invariant of the attrition demo: at least one and at most five
live servers, no duplicate live server, live servers disjoint from the kill
log, one recorded latency per success, and requests partitioned into
successes and failures. -/
def ChaosInv (s : ChaosState) : Prop :=
  1 ≤ s.active_servers.length ∧
  s.active_servers.length ≤ 5 ∧
  s.active_servers.Nodup ∧
  (∀ x ∈ s.active_servers, x ∉ s.server_failures.map Prod.snd) ∧
  s.response_times.length = s.successful_requests ∧
  s.total_requests = s.successful_requests + s.failed_requests

theorem reach_inv (s : ChaosState) (hs : Reach s) : ChaosInv s := by
  induction hs with
  | init =>
    refine ⟨by decide, by decide, by decide, ?_, rfl, rfl⟩
    intro x _ hx
    simp [initChaos] at hx
  | kill s i t _ ih =>
    obtain ⟨h1, h5, hnd, hdisj, hrt, htot⟩ := ih
    by_cases h : 1 < s.active_servers.length
    · have hmem : s.active_servers.get
          ⟨i % s.active_servers.length, Nat.mod_lt i (by omega)⟩
          ∈ s.active_servers := List.get_mem _ _ _
      set srv := s.active_servers.get
        ⟨i % s.active_servers.length, Nat.mod_lt i (by omega)⟩ with hsrv
      have hkill : (kill_random_server s i t).2
          = { s with
                active_servers := s.active_servers.erase srv,
                server_failures := s.server_failures ++ [(t, srv)] } := by
        simp [kill_random_server, dif_pos h, hsrv]
      rw [hkill]
      have hlen : (s.active_servers.erase srv).length
          = s.active_servers.length - 1 :=
        List.length_erase_of_mem hmem
      refine ⟨?_, ?_, hnd.erase srv, ?_, hrt, htot⟩
      · show 1 ≤ (s.active_servers.erase srv).length
        omega
      · show (s.active_servers.erase srv).length ≤ 5
        omega
      show ∀ x ∈ s.active_servers.erase srv,
        x ∉ (s.server_failures ++ [(t, srv)]).map Prod.snd
      intro x hx hxk
      have hx' : x ∈ s.active_servers := List.mem_of_mem_erase hx
      have hxne : x ≠ srv := ((List.Nodup.mem_erase_iff hnd).mp hx).1
      simp only [List.map_append, List.map_cons, List.map_nil,
        List.mem_append, List.mem_cons, List.not_mem_nil, or_false] at hxk
      rcases hxk with hk | hk
      · exact hdisj x hx' hk
      · exact hxne hk
    · have hkill : (kill_random_server s i t).2 = s := by
        simp [kill_random_server, dif_neg h]
      rw [hkill]
      exact ⟨h1, h5, hnd, hdisj, hrt, htot⟩
  | health s rjit rsucc _ ih =>
    obtain ⟨h1, h5, hnd, hdisj, hrt, htot⟩ := ih
    by_cases h : rsucc < success_probability s.active_servers.length
    · have hstep : (check_system_health s rjit rsucc).2
          = { s with
                total_requests := s.total_requests + 1,
                successful_requests := s.successful_requests + 1,
                response_times := s.response_times
                  ++ [response_time_model s.active_servers.length rjit] } := by
        simp [check_system_health, mock_health_check, h]
      rw [hstep]
      refine ⟨h1, h5, hnd, hdisj, ?_, ?_⟩
      · show (s.response_times
            ++ [response_time_model s.active_servers.length rjit]).length
          = s.successful_requests + 1
        simp [hrt]
      · show s.total_requests + 1 = s.successful_requests + 1 + s.failed_requests
        omega
    · have hstep : (check_system_health s rjit rsucc).2
          = { s with
                total_requests := s.total_requests + 1,
                failed_requests := s.failed_requests + 1 } := by
        simp [check_system_health, mock_health_check, h]
      rw [hstep]
      refine ⟨h1, h5, hnd, hdisj, hrt, ?_⟩
      show s.total_requests + 1 = s.successful_requests + (s.failed_requests + 1)
      omega

theorem kill_step_eq (s : ChaosState) (i t : Nat)
    (h : 1 < s.active_servers.length) :
    kill_random_server s i t
      = (some (s.active_servers.get
           ⟨i % s.active_servers.length, Nat.mod_lt i (by omega)⟩),
         { s with
            active_servers := s.active_servers.erase
              (s.active_servers.get
                ⟨i % s.active_servers.length, Nat.mod_lt i (by omega)⟩),
            server_failures := s.server_failures
              ++ [(t, s.active_servers.get
                ⟨i % s.active_servers.length, Nat.mod_lt i (by omega)⟩)] }) := by
  simp [kill_random_server, dif_pos h]

theorem kill_noop_eq (s : ChaosState) (i t : Nat)
    (h : ¬ 1 < s.active_servers.length) :
    kill_random_server s i t = (none, s) := by
  simp [kill_random_server, dif_neg h]

theorem kill_length (s : ChaosState) (i t : Nat)
    (h : 1 < s.active_servers.length) :
    (kill_random_server s i t).2.active_servers.length
      = s.active_servers.length - 1 := by
  rw [kill_step_eq s i t h]
  exact List.length_erase_of_mem (List.get_mem _ _ _)

/-- C4: on every reachable pool state at least one server is live, and
`kill_random_server` on a one-server pool returns no identity and changes
nothing, leaving the live count at 1. -/
theorem pool_never_empties :
    (∀ s : ChaosState, Reach s → 1 ≤ s.active_servers.length) ∧
    (∀ (s : ChaosState) (i t : Nat), s.active_servers.length = 1 →
      kill_random_server s i t = (none, s) ∧
      (kill_random_server s i t).2.active_servers.length = 1) := by
  constructor
  · intro s hs
    exact (reach_inv s hs).1
  · intro s i t h
    have hnoop := kill_noop_eq s i t (by omega)
    exact ⟨hnoop, by rw [hnoop]; exact h⟩

/-- Witness for C4: the initial pool, and a concrete one-server pool. -/
theorem pool_never_empties_witness :
    1 ≤ initChaos.active_servers.length ∧
    (kill_random_server ⟨0, 0, 0, [], [], ["a"]⟩ 0 0
        = (none, ⟨0, 0, 0, [], [], ["a"]⟩) ∧
      (kill_random_server ⟨0, 0, 0, [], [], ["a"]⟩ 0 0).2.active_servers.length
        = 1) :=
  ⟨pool_never_empties.1 initChaos Reach.init,
   pool_never_empties.2 ⟨0, 0, 0, [], [], ["a"]⟩ 0 0 rfl⟩

/-- C5: with more than one live server, a kill removes exactly the chosen
server from the live list (any live server is choosable through the choice
index), logs it with its timestamp, keeps live and killed disjoint, and
returns its identity; three kills from the initial five-server pool leave
exactly 2 live servers; and a kill on a one-server pool is a no-op returning
no identity and keeping the live count at 1. -/
theorem kill_removes_exactly_one :
    (∀ (s : ChaosState) (i t : Nat), Reach s → 1 < s.active_servers.length →
      ∃ srv,
        kill_random_server s i t
          = (some srv,
             { s with
                active_servers := s.active_servers.erase srv,
                server_failures := s.server_failures ++ [(t, srv)] }) ∧
        srv ∈ s.active_servers ∧
        srv ∉ (kill_random_server s i t).2.active_servers ∧
        (kill_random_server s i t).2.active_servers.length
          = s.active_servers.length - 1 ∧
        (∀ x ∈ (kill_random_server s i t).2.active_servers,
          x ∉ (kill_random_server s i t).2.server_failures.map Prod.snd)) ∧
    (∀ (s : ChaosState) (t j : Nat) (hj : j < s.active_servers.length),
      1 < s.active_servers.length →
      (kill_random_server s j t).1 = some (s.active_servers.get ⟨j, hj⟩)) ∧
    (∀ i1 t1 i2 t2 i3 t3 : Nat,
      (kill_random_server
        ((kill_random_server
          ((kill_random_server initChaos i1 t1).2) i2 t2).2)
        i3 t3).2.active_servers.length = 2) ∧
    (∀ (s : ChaosState) (i t : Nat), s.active_servers.length = 1 →
      kill_random_server s i t = (none, s)) := by
  refine ⟨?_, ?_, ?_, ?_⟩
  · intro s i t hs h
    have hnd : s.active_servers.Nodup := (reach_inv s hs).2.2.1
    refine ⟨s.active_servers.get
      ⟨i % s.active_servers.length, Nat.mod_lt i (by omega)⟩,
      kill_step_eq s i t h, List.get_mem _ _ _, ?_, kill_length s i t h, ?_⟩
    · rw [kill_step_eq s i t h]
      intro hmem
      have := ((List.Nodup.mem_erase_iff hnd).mp hmem).1
      exact this rfl
    · exact (reach_inv _ (Reach.kill s i t hs)).2.2.2.1
  · intro s t j hj h
    have hmod : j % s.active_servers.length = j := Nat.mod_eq_of_lt hj
    simp only [kill_random_server, dif_pos h]
    congr 2
    exact Fin.ext hmod
  · intro i1 t1 i2 t2 i3 t3
    have h0 : initChaos.active_servers.length = 5 := rfl
    have h1 : 1 < initChaos.active_servers.length := by omega
    have l1 : (kill_random_server initChaos i1 t1).2.active_servers.length
        = 4 := by
      rw [kill_length _ _ _ h1, h0]
    have h2 : 1 < (kill_random_server initChaos i1 t1).2.active_servers.length := by
      omega
    have l2 : (kill_random_server
        ((kill_random_server initChaos i1 t1).2) i2 t2).2.active_servers.length
        = 3 := by
      rw [kill_length _ _ _ h2, l1]
    have h3 : 1 < (kill_random_server
        ((kill_random_server initChaos i1 t1).2) i2 t2).2.active_servers.length := by
      omega
    rw [kill_length _ _ _ h3, l2]
  · intro s i t h
    exact kill_noop_eq s i t (by omega)

/-- Witness for C5: at the initial pool with choice index 0, and a concrete
one-server pool for the no-op clause. -/
theorem kill_removes_exactly_one_witness :
    (∃ srv,
        kill_random_server initChaos 0 0
          = (some srv,
             { initChaos with
                active_servers := initChaos.active_servers.erase srv,
                server_failures := initChaos.server_failures ++ [(0, srv)] }) ∧
        srv ∈ initChaos.active_servers ∧
        srv ∉ (kill_random_server initChaos 0 0).2.active_servers ∧
        (kill_random_server initChaos 0 0).2.active_servers.length
          = initChaos.active_servers.length - 1 ∧
        (∀ x ∈ (kill_random_server initChaos 0 0).2.active_servers,
          x ∉ (kill_random_server initChaos 0 0).2.server_failures.map
                Prod.snd)) ∧
    kill_random_server ⟨0, 0, 0, [], [], ["a"]⟩ 5 7
      = (none, ⟨0, 0, 0, [], [], ["a"]⟩) :=
  ⟨kill_removes_exactly_one.1 initChaos 0 0 Reach.init (by decide),
   kill_removes_exactly_one.2.2.2 ⟨0, 0, 0, [], [], ["a"]⟩ 5 7 rfl⟩

/-- Clamping to the unit interval, from the spec's words. -/
def clamp01 (q : ℚ) : ℚ := max 0 (min 1 q)

/-- Modelled from the spec: the claimed success-probability formula
`base + (N-1) * step` clamped to `[0,1]` with `base = 0.95`, `step = 0.01`. -/
def spec_success_prob (n : Nat) : ℚ :=
  clamp01 (95/100 + ((n : ℚ) - 1) * (1/100))

/-- C6: for every reachable pool state the live count `N` satisfies
`N ≥ 1` and the code's success probability coincides with the clamped
formula `clamp01 (0.95 + (N-1) * 0.01)` (the clamp never bites because
`N ≤ 5`), and the clamped formula is monotonically non-decreasing in `N`. -/
theorem success_prob_clamped_monotone :
    (∀ s : ChaosState, Reach s →
      1 ≤ s.active_servers.length ∧
      success_probability s.active_servers.length
        = spec_success_prob s.active_servers.length) ∧
    (∀ m k : Nat, m ≤ k → spec_success_prob m ≤ spec_success_prob k) := by
  constructor
  · intro s hs
    obtain ⟨h1, h5, -⟩ := reach_inv s hs
    refine ⟨h1, ?_⟩
    set n := s.active_servers.length with hn
    interval_cases n <;>
      norm_num [success_probability, spec_success_prob, clamp01]
  · intro m k hmk
    have hc : (m : ℚ) ≤ (k : ℚ) := by exact_mod_cast hmk
    have hq : 95/100 + ((m : ℚ) - 1) * (1/100)
        ≤ 95/100 + ((k : ℚ) - 1) * (1/100) := by linarith
    exact max_le_max le_rfl (min_le_min le_rfl hq)

/-- Witness for C6: the initial state and the pair `m = 1 ≤ k = 5`. -/
theorem success_prob_clamped_monotone_witness :
    (1 ≤ initChaos.active_servers.length ∧
      success_probability initChaos.active_servers.length
        = spec_success_prob initChaos.active_servers.length) ∧
    spec_success_prob 1 ≤ spec_success_prob 5 :=
  ⟨success_prob_clamped_monotone.1 initChaos Reach.init,
   success_prob_clamped_monotone.2 1 5 (by omega)⟩

/-- The success rate computed in `ChaosTest.generate_report`:
`success / total * 100` with sentinel 0 when no request was recorded. -/
def att_success_rate (s : ChaosState) : ℚ :=
  if 0 < s.total_requests then
    (s.successful_requests : ℚ) / (s.total_requests : ℚ) * 100
  else 0

/-- The average response time computed in `ChaosTest.generate_report`:
`sum(response_times) / len(response_times)` with sentinel 0 on an empty
sample list. -/
def avg_response_time (s : ChaosState) : ℚ :=
  if s.response_times.isEmpty then 0
  else s.response_times.sum / (s.response_times.length : ℚ)

/-- The success-rate criterion line of `ChaosTest.generate_report`:
PASS at `rate ≥ 99.9`, ACCEPTABLE at `rate ≥ 95`, FAIL below — mapped to a
boolean that is true for the two non-failing outcomes. -/
def att_success_verdict (s : ChaosState) : Bool :=
  if 999/10 ≤ att_success_rate s then true
  else if 95 ≤ att_success_rate s then true
  else false

/-- The response-time criterion line of `ChaosTest.generate_report`:
average latency strictly below 3000 ms. -/
def att_latency_verdict (s : ChaosState) : Bool :=
  decide (avg_response_time s < 3000)

/-- The overall line of `ChaosTest.generate_report`:
`success_rate >= 95 and avg_response_time < 3000`. -/
def att_overall_pass (s : ChaosState) : Bool :=
  decide (95 ≤ att_success_rate s) && decide (avg_response_time s < 3000)

/-- C10: on every reachable state of the attrition demo — in particular
after every `check_system_health` call — there is exactly one recorded
latency sample per successful request, the request total is the sum of
successes and failures, and the reported average latency therefore averages
over successful requests only. -/
theorem latency_samples_match_successes (s : ChaosState) (hs : Reach s) :
    s.response_times.length = s.successful_requests ∧
    s.total_requests = s.successful_requests + s.failed_requests ∧
    (¬ s.response_times.isEmpty →
      avg_response_time s
        = s.response_times.sum / (s.successful_requests : ℚ)) := by
  obtain ⟨-, -, -, -, hrt, htot⟩ := reach_inv s hs
  refine ⟨hrt, htot, ?_⟩
  intro hne
  rw [avg_response_time, if_neg hne, hrt]

/-- Witness for C10: the state after one successful health check from the
initial state. -/
theorem latency_samples_match_successes_witness :
    (check_system_health initChaos 0 0).2.response_times.length
        = (check_system_health initChaos 0 0).2.successful_requests ∧
    (check_system_health initChaos 0 0).2.total_requests
        = (check_system_health initChaos 0 0).2.successful_requests
          + (check_system_health initChaos 0 0).2.failed_requests ∧
    (¬ (check_system_health initChaos 0 0).2.response_times.isEmpty →
      avg_response_time (check_system_health initChaos 0 0).2
        = (check_system_health initChaos 0 0).2.response_times.sum
          / ((check_system_health initChaos 0 0).2.successful_requests : ℚ)) :=
  latency_samples_match_successes _
    (Reach.health initChaos 0 0 Reach.init)

end AttritionDemo

namespace DDoSDemo

/-- The normal-user success rate computed in
`DDoSSimulation.generate_report`: `success / (success + fail) * 100` with
sentinel 0 when no normal request was recorded. -/
def normal_success_rate (r : DDoSResults) : ℚ :=
  if 0 < r.normal_user_success + r.normal_user_fail then
    (r.normal_user_success : ℚ)
      / ((r.normal_user_success + r.normal_user_fail : Nat) : ℚ) * 100
  else 0

/-- The bot block rate computed in `DDoSSimulation.generate_report`:
`blocked / sent * 100` with sentinel 0 when no bot request was recorded. -/
def bot_block_rate (r : DDoSResults) : ℚ :=
  if 0 < r.bot_requests_sent then
    (r.bot_requests_blocked : ℚ) / (r.bot_requests_sent : ℚ) * 100
  else 0

/-- The NORMAL USER ACCESS criterion of `generate_report`:
`normal_success_rate >= 95`. -/
def normal_access_pass (r : DDoSResults) : Bool :=
  decide (95 ≤ normal_success_rate r)

/-- The BOT BLOCKING criterion of `generate_report`:
`bot_block_rate >= 80`. -/
def bot_blocking_pass (r : DDoSResults) : Bool :=
  decide (80 ≤ bot_block_rate r)

/-- The overall line of `generate_report`:
`normal_success_rate >= 95 and bot_block_rate >= 80`. -/
def ddos_overall_pass (r : DDoSResults) : Bool :=
  decide (95 ≤ normal_success_rate r) && decide (80 ≤ bot_block_rate r)

/-- C7: both evaluators' overall verdict is exactly the conjunction of the
per-criterion verdicts; concretely, a 96% normal success rate with an 82%
bot block rate passes overall, while dropping the block rate to 60% fails
overall with exactly the bot-blocking criterion flagged. -/
theorem overall_verdict_is_conjunction :
    (∀ r : DDoSResults,
      ddos_overall_pass r = (normal_access_pass r && bot_blocking_pass r)) ∧
    (∀ s : AttritionDemo.ChaosState,
      AttritionDemo.att_overall_pass s
        = (AttritionDemo.att_success_verdict s
            && AttritionDemo.att_latency_verdict s)) ∧
    ddos_overall_pass ⟨96, 4, 100, 82⟩ = true ∧
    (ddos_overall_pass ⟨96, 4, 100, 60⟩ = false ∧
      bot_blocking_pass ⟨96, 4, 100, 60⟩ = false ∧
      normal_access_pass ⟨96, 4, 100, 60⟩ = true) := by
  refine ⟨fun r => rfl, ?_, ?_, ?_, ?_, ?_⟩
  · intro s
    rw [AttritionDemo.att_overall_pass, AttritionDemo.att_success_verdict,
      AttritionDemo.att_latency_verdict]
    by_cases h1 : (999 : ℚ)/10 ≤ AttritionDemo.att_success_rate s
    · have h2 : (95 : ℚ) ≤ AttritionDemo.att_success_rate s := by linarith
      simp [h1, h2]
    · by_cases h2 : (95 : ℚ) ≤ AttritionDemo.att_success_rate s <;>
        simp [h1, h2]
  · show (decide ((95 : ℚ) ≤ normal_success_rate ⟨96, 4, 100, 82⟩)
      && decide ((80 : ℚ) ≤ bot_block_rate ⟨96, 4, 100, 82⟩)) = true
    norm_num [normal_success_rate, bot_block_rate]
  · show (decide ((95 : ℚ) ≤ normal_success_rate ⟨96, 4, 100, 60⟩)
      && decide ((80 : ℚ) ≤ bot_block_rate ⟨96, 4, 100, 60⟩)) = false
    norm_num [normal_success_rate, bot_block_rate]
  · show decide ((80 : ℚ) ≤ bot_block_rate ⟨96, 4, 100, 60⟩) = false
    norm_num [bot_block_rate]
  · show decide ((95 : ℚ) ≤ normal_success_rate ⟨96, 4, 100, 60⟩) = true
    norm_num [normal_success_rate]

/-- C8: a category with zero recorded requests yields the sentinel rate 0,
and an empty latency sample list yields the sentinel average 0, instead of a
division-by-zero error, in both evaluators. -/
theorem zero_requests_sentinel :
    (∀ r : DDoSResults, r.normal_user_success + r.normal_user_fail = 0 →
      normal_success_rate r = 0) ∧
    (∀ r : DDoSResults, r.bot_requests_sent = 0 → bot_block_rate r = 0) ∧
    (∀ s : AttritionDemo.ChaosState, s.total_requests = 0 →
      AttritionDemo.att_success_rate s = 0) ∧
    (∀ s : AttritionDemo.ChaosState, s.response_times = [] →
      AttritionDemo.avg_response_time s = 0) := by
  refine ⟨?_, ?_, ?_, ?_⟩
  · intro r h
    rw [normal_success_rate, if_neg (by omega)]
  · intro r h
    rw [bot_block_rate, if_neg (by omega)]
  · intro s h
    rw [AttritionDemo.att_success_rate, if_neg (by omega)]
  · intro s h
    rw [AttritionDemo.avg_response_time, if_pos (by simp [h])]

/-- Witness for C8: all-zero metrics records. -/
theorem zero_requests_sentinel_witness :
    normal_success_rate ⟨0, 0, 7, 3⟩ = 0 ∧
    bot_block_rate ⟨4, 1, 0, 0⟩ = 0 ∧
    AttritionDemo.att_success_rate ⟨0, 0, 0, [], [], []⟩ = 0 ∧
    AttritionDemo.avg_response_time ⟨3, 2, 1, [], [], []⟩ = 0 :=
  ⟨zero_requests_sentinel.1 ⟨0, 0, 7, 3⟩ rfl,
   zero_requests_sentinel.2.1 ⟨4, 1, 0, 0⟩ rfl,
   zero_requests_sentinel.2.2.1 ⟨0, 0, 0, [], [], []⟩ rfl,
   zero_requests_sentinel.2.2.2 ⟨3, 2, 1, [], [], []⟩ rfl⟩

end DDoSDemo
